import Mathlib

/-!
Verification of the distributed-stages scheduler core of ByConity, as a
shallow embedding of `src/Interpreters/DistributedStages/Scheduler.h` and
`src/CloudServices/CnchWorkerClient.cpp`.

Machine integers (`size_t`) are modelled as `Nat` with explicit `% 2 ^ 64`
where overflow matters; `time_t` / `long` fields as `Int` with truncating
division (`Int.tdiv`) for C++ `/`.  Fallible RPC submission routines (which
throw `LOGICAL_ERROR` before issuing the RPC) are modelled as `Except`
values whose `ok` payload is the request actually sent on the wire.
-/

set_option maxHeartbeats 1000000

namespace ByConity

/-- Worker address; `AddressInfo` is opaque to the scheduler core. -/
abbrev AddressInfo := String

/-- Result of node selection for one plan segment: the ordered list of
worker addresses chosen for its parallel instances (`NodeSelectorResult`). -/
abbrev NodeSelectorResult := List AddressInfo

/-- Node type of a worker entry.  `NodeType::Local` marks the distinguished
local pseudo-worker appended at scheduler construction
(`Scheduler.h` line 110); the other entries are remote workers. -/
inductive NodeType where
  | Remote
  | Local
  deriving DecidableEq, Repr

/-- One entry of `ClusterNodes::all_workers`; constructed in the source by
`emplace_back(address, node_type, id)`. -/
structure WorkerNode where
  address : AddressInfo
  type : NodeType
  id : String
  deriving DecidableEq, Repr

/-- Cluster membership handed to the scheduler (`ClusterNodes`). -/
structure ClusterNodes where
  all_workers : List WorkerNode
  deriving DecidableEq, Repr

/-- POSIX `timespec` as returned by `Context::getQueryExpirationTimeStamp`. -/
structure Timespec where
  tv_sec : Int
  tv_nsec : Int
  deriving DecidableEq, Repr

/-- A schedulable segment task as consumed by `Scheduler::selectNodes`
(`task.segment_id`, `task.has_table_scan_or_value`). -/
structure SegmentTask where
  segment_id : Nat
  has_table_scan_or_value : Bool
  deriving DecidableEq, Repr

/-- The scheduler state relevant to the sampled header
(`Scheduler.h` lines 90-187): constructor-initialised fields plus the
per-query node-selection cache `node_selector_result`
(`NodeSelector::SelectorResultMap`, an unordered map modelled
extensionally). -/
structure Scheduler where
  query_id : String
  cluster_nodes : ClusterNodes
  local_address : AddressInfo
  batch_schedule : Bool
  query_expiration_ms : Int
  node_selector_result : Nat → Option NodeSelectorResult

/-- The `Scheduler` constructor (`Scheduler.h` lines 95-113): stores the
caller-supplied fields, appends the local pseudo-worker to
`cluster_nodes.all_workers`, and computes `query_expiration_ms` from the
query context's expiration `timespec` as
`tv_sec * 1000 + tv_nsec / 1000000`. -/
def mkScheduler (query_id : String) (cluster_nodes : ClusterNodes)
    (local_address : AddressInfo) (batch_schedule : Bool)
    (query_expiration_ts : Timespec) : Scheduler :=
  { query_id := query_id
    cluster_nodes :=
      { all_workers :=
          cluster_nodes.all_workers ++ [⟨local_address, NodeType.Local, ""⟩] }
    local_address := local_address
    batch_schedule := batch_schedule
    query_expiration_ms :=
      query_expiration_ts.tv_sec * 1000 + query_expiration_ts.tv_nsec.tdiv 1000000
    node_selector_result := fun _ => none }

/-- C++ `std::unordered_map::emplace(k, v)` semantics as used in
`Scheduler::selectNodes`: if `k` is present the map is unchanged and the
existing value is returned; otherwise `(k, v)` is inserted and `v` is
returned.  (The argument `v` has already been evaluated by the caller:
C++ evaluates function arguments unconditionally.) -/
def emplaceResult (m : Nat → Option NodeSelectorResult) (k : Nat)
    (v : NodeSelectorResult) : NodeSelectorResult × (Nat → Option NodeSelectorResult) :=
  match m k with
  | some r => (r, m)
  | none => (v, fun x => if x = k then some v else m x)

/-- `Scheduler::selectNodes` (`Scheduler.h` lines 175-181).  The node-selection
policy `NodeSelector::select` is a collaborator, passed here as the pure
function `select`.  The C++ body is
`node_selector_result.emplace(task.segment_id, node_selector.select(...))`;
since C++ evaluates the arguments of `emplace` before the call, `select` is
invoked on every call, even when the segment is already cached.  The third
component of the result records the segment ids for which
`NodeSelector::select` was invoked during this call. -/
def selectNodes (select : Nat → Bool → NodeSelectorResult) (sched : Scheduler)
    (task : SegmentTask) : NodeSelectorResult × Scheduler × List Nat :=
  let fresh := select task.segment_id task.has_table_scan_or_value
  let res := emplaceResult sched.node_selector_result task.segment_id fresh
  (res.1, { sched with node_selector_result := res.2 }, [task.segment_id])

/-- Fold a sequence of `Scheduler::selectNodes` calls over the scheduler
state, keeping only the state. -/
def applySelectCalls (select : Nat → Bool → NodeSelectorResult) (sched : Scheduler) :
    List SegmentTask → Scheduler
  | [] => sched
  | t :: ts => applySelectCalls select (selectNodes select sched t).2.1 ts

/-- `SegmentTaskInstance` (`Scheduler.h` lines 38-60): one parallel slice of
one plan segment.  Both fields are `size_t`. -/
structure SegmentTaskInstance where
  segment_id : Nat
  parallel_index : Nat
  deriving DecidableEq, Repr

/-- `SegmentTaskInstance::operator==` (`Scheduler.h` lines 47-50). -/
def SegmentTaskInstance.eqOp (a b : SegmentTaskInstance) : Bool :=
  a.segment_id == b.segment_id && a.parallel_index == b.parallel_index

/-- `SegmentTaskInstance::Hash::operator()` (`Scheduler.h` lines 52-59):
`(key.segment_id << 13) + key.parallel_index` in `size_t` arithmetic,
i.e. modulo `2 ^ 64`. -/
def SegmentTaskInstance.Hash (key : SegmentTaskInstance) : Nat :=
  ((key.segment_id <<< 13) % 2 ^ 64 + key.parallel_index) % 2 ^ 64

/-- Manipulation task kind.  Modelled from the usage in
`CnchWorkerClient.cpp`: only `Mutate` and `Clustering` are distinguished by
`submitManipulationTask` (extra mutation fields); `Merge` stands for the
remaining kinds. -/
inductive ManipulationType where
  | Merge
  | Mutate
  | Clustering
  deriving DecidableEq, Repr

/-- The fields of `ManipulationTaskParams` read by
`CnchWorkerClient::submitManipulationTask` and
`CnchWorkerClient::submitMvRefreshTask`.  `rpc_port = 0` models an unset
port (the C++ test is `if (!params.rpc_port)`). -/
structure ManipulationTaskParams where
  type : ManipulationType
  task_id : String
  rpc_port : Nat
  columns_commit_time : Nat
  is_bucket_table : Bool
  parts_preload_level : Nat
  create_table_query : String
  source_parts : List String
  mutation_commit_time : Nat
  mutate_commands : String
  storage_id : String
  mv_drop_partition_query : String
  mv_insert_select_query : String
  deriving DecidableEq, Repr

/-- `Protos::SubmitManipulationTaskReq` as filled by
`CnchWorkerClient::submitManipulationTask` (`CnchWorkerClient.cpp`
lines 62-102).  Optional fields are those set only conditionally. -/
structure SubmitManipulationTaskReq where
  txn_id : Nat
  timestamp : Nat
  type : ManipulationType
  task_id : String
  rpc_port : Nat
  columns_commit_time : Nat
  is_bucket_table : Bool
  parts_preload_level : Nat
  create_table_query : Option String
  source_parts : List String
  mutation_commit_time : Option Nat
  mutate_commands : Option String
  dynamic_object_column_schema : Option String
  deriving DecidableEq, Repr

/-- `CnchWorkerClient::submitManipulationTask` (`CnchWorkerClient.cpp`
lines 62-102).  Throws `LOGICAL_ERROR` when `params.rpc_port` is unset,
before any request is built or sent; otherwise the `ok` payload is the
request issued to the worker via `stub->submitManipulationTask`.
`has_dynamic_subcolumns` and `dynamic_schema` stand for the storage
metadata consulted at lines 92-96. -/
def submitManipulationTask (has_dynamic_subcolumns : Bool) (dynamic_schema : String)
    (params : ManipulationTaskParams) (txn_id : Nat) :
    Except String SubmitManipulationTaskReq :=
  if params.rpc_port = 0 then
    Except.error "Rpc port is not set in ManipulationTaskParams"
  else
    Except.ok
      { txn_id := txn_id
        timestamp := 0
        type := params.type
        task_id := params.task_id
        rpc_port := params.rpc_port
        columns_commit_time := params.columns_commit_time
        is_bucket_table := params.is_bucket_table
        parts_preload_level := params.parts_preload_level
        create_table_query :=
          if params.create_table_query ≠ "" then some params.create_table_query else none
        source_parts := params.source_parts
        mutation_commit_time :=
          if params.type = ManipulationType.Mutate ∨ params.type = ManipulationType.Clustering
          then some params.mutation_commit_time else none
        mutate_commands :=
          if params.type = ManipulationType.Mutate ∨ params.type = ManipulationType.Clustering
          then some params.mutate_commands else none
        dynamic_object_column_schema :=
          if has_dynamic_subcolumns then some dynamic_schema else none }

/-- `Protos::SubmitMVRefreshTaskReq` as filled by
`CnchWorkerClient::submitMvRefreshTask` (`CnchWorkerClient.cpp`
lines 187-212). -/
structure SubmitMVRefreshTaskReq where
  txn_id : Nat
  timestamp : Nat
  task_id : String
  rpc_port : Nat
  mv_storage_id : String
  create_table_query : String
  drop_partition_query : String
  insert_select_query : String
  deriving DecidableEq, Repr

/-- `CnchWorkerClient::submitMvRefreshTask` (`CnchWorkerClient.cpp`
lines 187-212).  Throws `LOGICAL_ERROR` when `params.rpc_port` is unset,
before any request is built or sent; otherwise the `ok` payload is the
request issued via `stub->submitMVRefreshTask`. -/
def submitMvRefreshTask (params : ManipulationTaskParams) (txn_id : Nat) :
    Except String SubmitMVRefreshTaskReq :=
  if params.rpc_port = 0 then
    Except.error "Rpc port is not set in ManipulationTaskParams"
  else
    Except.ok
      { txn_id := txn_id
        timestamp := 0
        task_id := params.task_id
        rpc_port := params.rpc_port
        mv_storage_id := params.storage_id
        create_table_query := params.create_table_query
        drop_partition_query := params.mv_drop_partition_query
        insert_select_query := params.mv_insert_select_query }

/-- A Kafka topic-partition-offset triple (`cppkafka::TopicPartition`). -/
structure TopicPartition where
  topic : String
  partition : Int
  offset : Int
  deriving DecidableEq, Repr

/-- The fields of `KafkaTaskCommand` read by
`CnchWorkerClient::submitKafkaConsumeTask`. -/
structure KafkaTaskCommand where
  type : Nat
  task_id : String
  rpc_port : Nat
  cnch_storage_id : String
  local_database_name : String
  local_table_name : String
  assigned_consumer : Nat
  create_table_commands : List String
  tpl : List TopicPartition
  sample_partitions : List TopicPartition
  deriving DecidableEq, Repr

/-- `Protos::SubmitKafkaConsumeTaskReq` as filled by
`CnchWorkerClient::submitKafkaConsumeTask` (`CnchWorkerClient.cpp`
lines 690-730). -/
structure SubmitKafkaConsumeTaskReq where
  type : Nat
  task_id : String
  rpc_port : Nat
  cnch_storage_id : String
  database : String
  table : String
  assigned_consumer : Nat
  create_table_command : List String
  tpl : List TopicPartition
  sample_partitions : List TopicPartition
  deriving DecidableEq, Repr

/-- `CnchWorkerClient::submitKafkaConsumeTask` (`CnchWorkerClient.cpp`
lines 690-730).  Throws `LOGICAL_ERROR` when `command.rpc_port` is unset,
before any request is built or sent; otherwise the `ok` payload is the
request issued via `stub->submitKafkaConsumeTask`. -/
def submitKafkaConsumeTask (command : KafkaTaskCommand) :
    Except String SubmitKafkaConsumeTaskReq :=
  if command.rpc_port = 0 then
    Except.error "Rpc port is not set in KafkaTaskCommand"
  else
    Except.ok
      { type := command.type
        task_id := command.task_id
        rpc_port := command.rpc_port
        cnch_storage_id := command.cnch_storage_id
        database := command.local_database_name
        table := command.local_table_name
        assigned_consumer := command.assigned_consumer
        create_table_command := command.create_table_commands
        tpl := command.tpl
        sample_partitions := command.sample_partitions }

/-- The list of RPC requests actually issued by a fallible submission
routine: none when it throws, exactly the one request otherwise. -/
def issuedRpcs {α : Type} : Except String α → List α
  | Except.error _ => []
  | Except.ok r => [r]

/-- The `worker_info` sub-message of `Protos::BroadcastManifestReq`. -/
structure WorkerInfo where
  worker_id : String
  index : Nat
  num_workers : Nat
  deriving DecidableEq, Repr

/-- `Protos::BroadcastManifestReq` as filled by
`CnchWorkerClient::broadcastManifest` (`CnchWorkerClient.cpp`
lines 493-541). -/
structure BroadcastManifestReq where
  table_uuid : String
  txn_id : Nat
  worker_info : WorkerInfo
  parts : List String
  delete_bitmaps : List String
  deriving DecidableEq, Repr

/-- `CnchWorkerClient::broadcastManifest` (`CnchWorkerClient.cpp`
lines 493-541).  `worker_index` stands for
`current_wg->getWorkerIndex(worker_id.id)` and `num_workers` for
`current_wg->workerNum()`.  After filling `worker_info` the function throws
`LOGICAL_ERROR` when `num_workers <= index`, before copying parts or
issuing `stub->broadcastManifest`; otherwise the `ok` payload is the
request issued. -/
def broadcastManifest (table_uuid : String) (txn_id : Nat) (worker_id : String)
    (worker_index num_workers : Nat) (parts delete_bitmaps : List String) :
    Except String BroadcastManifestReq :=
  let worker_info : WorkerInfo :=
    { worker_id := worker_id, index := worker_index, num_workers := num_workers }
  if worker_info.num_workers ≤ worker_info.index then
    Except.error "Invailid worker index for worker group"
  else
    Except.ok
      { table_uuid := table_uuid
        txn_id := txn_id
        worker_info := worker_info
        parts := parts
        delete_bitmaps := delete_bitmaps }

/-- `Protos::SendCreateQueryReq` as filled by
`CnchWorkerClient::sendCreateQueries` (`CnchWorkerClient.cpp`
lines 214-240).  `timeout` is the remote session-cleanup timeout in
seconds. -/
structure SendCreateQueryReq where
  txn_id : Nat
  primary_txn_id : Nat
  timeout : Nat
  create_queries : List String
  cnch_table_create_queries : List String
  deriving DecidableEq, Repr

/-- `CnchWorkerClient::sendCreateQueries` (`CnchWorkerClient.cpp`
lines 214-240).  `max_execution_time_seconds` stands for
`settings.max_execution_time.value.totalSeconds()`; the request's timeout
field is set by `request.set_timeout(timeout ? timeout : 3600)`. -/
def sendCreateQueries (txn_id primary_txn_id : Nat)
    (max_execution_time_seconds : Nat)
    (create_queries cnch_table_create_queries : List String) : SendCreateQueryReq :=
  let timeout := max_execution_time_seconds
  { txn_id := txn_id
    primary_txn_id := primary_txn_id
    timeout := if timeout ≠ 0 then timeout else 3600
    create_queries := create_queries
    cnch_table_create_queries := cnch_table_create_queries }

/-- `DedupWorkerStatus` (declared in `CloudServices/DedupWorkerStatus.h`,
not part of the sample; fields modelled from the copies performed in
`CnchWorkerClient::getDedupWorkerStatus`). -/
structure DedupWorkerStatus where
  is_active : Bool
  create_time : Nat
  total_schedule_cnt : Nat
  total_dedup_cnt : Nat
  last_schedule_wait_ms : Nat
  last_task_total_cost_ms : Nat
  last_task_dedup_cost_ms : Nat
  last_task_publish_cost_ms : Nat
  last_task_staged_part_cnt : Nat
  last_task_visible_part_cnt : Nat
  last_task_staged_part_total_rows : Nat
  last_task_visible_part_total_rows : Nat
  dedup_tasks_progress : List String
  last_exception : String
  last_exception_time : Nat
  deriving DecidableEq, Repr

/-- The default-constructed `DedupWorkerStatus` (the local
`DedupWorkerStatus status;` at `CnchWorkerClient.cpp` line 619): an
inactive status with all counters and strings at their defaults. -/
def DedupWorkerStatus.init : DedupWorkerStatus :=
  { is_active := false
    create_time := 0
    total_schedule_cnt := 0
    total_dedup_cnt := 0
    last_schedule_wait_ms := 0
    last_task_total_cost_ms := 0
    last_task_dedup_cost_ms := 0
    last_task_publish_cost_ms := 0
    last_task_staged_part_cnt := 0
    last_task_visible_part_cnt := 0
    last_task_staged_part_total_rows := 0
    last_task_visible_part_total_rows := 0
    dedup_tasks_progress := []
    last_exception := ""
    last_exception_time := 0 }

/-- `Protos::GetDedupWorkerStatusResp`: the worker's response fields read by
`CnchWorkerClient::getDedupWorkerStatus`. -/
structure GetDedupWorkerStatusResp where
  is_active : Bool
  create_time : Nat
  total_schedule_cnt : Nat
  total_dedup_cnt : Nat
  last_schedule_wait_ms : Nat
  last_task_total_cost_ms : Nat
  last_task_dedup_cost_ms : Nat
  last_task_publish_cost_ms : Nat
  last_task_staged_part_cnt : Nat
  last_task_visible_part_cnt : Nat
  last_task_staged_part_total_rows : Nat
  last_task_visible_part_total_rows : Nat
  dedup_tasks_progress : List String
  last_exception : String
  last_exception_time : Nat
  deriving DecidableEq, Repr

/-- `CnchWorkerClient::getDedupWorkerStatus` (`CnchWorkerClient.cpp`
lines 607-640), from the response onward: default-construct the status,
copy `is_active`, and copy the remaining response fields only when the
worker is active. -/
def getDedupWorkerStatus (response : GetDedupWorkerStatusResp) : DedupWorkerStatus :=
  let status0 := DedupWorkerStatus.init
  let status := { status0 with is_active := response.is_active }
  if status.is_active then
    { status with
        create_time := response.create_time
        total_schedule_cnt := response.total_schedule_cnt
        total_dedup_cnt := response.total_dedup_cnt
        last_schedule_wait_ms := response.last_schedule_wait_ms
        last_task_total_cost_ms := response.last_task_total_cost_ms
        last_task_dedup_cost_ms := response.last_task_dedup_cost_ms
        last_task_publish_cost_ms := response.last_task_publish_cost_ms
        last_task_staged_part_cnt := response.last_task_staged_part_cnt
        last_task_visible_part_cnt := response.last_task_visible_part_cnt
        last_task_staged_part_total_rows := response.last_task_staged_part_total_rows
        last_task_visible_part_total_rows := response.last_task_visible_part_total_rows
        dedup_tasks_progress := response.dedup_tasks_progress
        last_exception := response.last_exception
        last_exception_time := response.last_exception_time }
  else
    status

/-- Per-segment scheduling status, following the spec's state machine
(`Pending/Ready/Dispatched` collapse to `Pending` at round granularity;
the terminal states are `Finished(Success)`, `Finished(Fail)` and
`Canceled`). -/
inductive SegStatus where
  | Pending
  | FinishedSuccess
  | FinishedFail
  | Canceled
  deriving DecidableEq, Repr

/-- Whether a segment status is terminal. -/
def SegStatus.isTerminal : SegStatus → Bool
  | SegStatus.Pending => false
  | _ => true

/-- Modelled from the spec: one round of the dependency-tracking loop of
`Scheduler::schedule` (the implementation file `Scheduler.cpp` is not part
of the sample; sections 4.3, 4.5 and 4.6 of the design describe it).
`segs` is the set of segment ids of the DAG, `deps s` the upstream segments
of `s`, and `outcome s` whether the dispatched instances of `s` report
success.  If a failure has been observed, no further segment is dispatched
and all pending segments are canceled; otherwise every pending segment
whose upstream segments have all finished successfully is dispatched and
completes with its outcome. -/
def scheduleStep (segs : Finset Nat) (deps : Nat → Finset Nat)
    (outcome : Nat → Bool) (st : Nat → SegStatus) (s : Nat) : SegStatus :=
  if (segs.filter fun x => st x = SegStatus.FinishedFail).Nonempty then
    (if s ∈ segs ∧ st s = SegStatus.Pending then SegStatus.Canceled else st s)
  else
    (if s ∈ segs ∧ st s = SegStatus.Pending ∧ ∀ d ∈ deps s, st d = SegStatus.FinishedSuccess
     then (if outcome s then SegStatus.FinishedSuccess else SegStatus.FinishedFail)
     else st s)

/-- Modelled from the spec: the scheduling state after `k` rounds, starting
from all segments pending. -/
def scheduleTrace (segs : Finset Nat) (deps : Nat → Finset Nat)
    (outcome : Nat → Bool) : Nat → (Nat → SegStatus)
  | 0 => fun _ => SegStatus.Pending
  | k + 1 => scheduleStep segs deps outcome (scheduleTrace segs deps outcome k)

/-- Modelled from the spec: `Scheduler::schedule`, run for as many rounds
as there are segments (enough to reach the loop's fixed point on an
acyclic DAG). -/
def schedule (segs : Finset Nat) (deps : Nat → Finset Nat)
    (outcome : Nat → Bool) : Nat → SegStatus :=
  scheduleTrace segs deps outcome segs.card

/-- The set of segments still pending after `k` rounds. -/
def pendSet (segs : Finset Nat) (deps : Nat → Finset Nat)
    (outcome : Nat → Bool) (k : Nat) : Finset Nat :=
  segs.filter fun s => scheduleTrace segs deps outcome k s = SegStatus.Pending

/-- Concrete manipulation-task parameters with an unset RPC port, used to
exercise the dispatch-time guard. -/
def wManipParams : ManipulationTaskParams :=
  { type := ManipulationType.Mutate
    task_id := "task-1"
    rpc_port := 0
    columns_commit_time := 11
    is_bucket_table := false
    parts_preload_level := 0
    create_table_query := "CREATE TABLE t"
    source_parts := ["part-1"]
    mutation_commit_time := 12
    mutate_commands := "ALTER"
    storage_id := "db.mv"
    mv_drop_partition_query := "DROP PARTITION p"
    mv_insert_select_query := "INSERT SELECT" }

/-- Concrete Kafka task command with an unset RPC port. -/
def wKafkaCommand : KafkaTaskCommand :=
  { type := 1
    task_id := "kafka-task"
    rpc_port := 0
    cnch_storage_id := "db.kafka"
    local_database_name := "db"
    local_table_name := "t"
    assigned_consumer := 2
    create_table_commands := ["CREATE TABLE k"]
    tpl := [⟨"topic", 0, 42⟩]
    sample_partitions := [] }

/-- Concrete worker response reporting an inactive dedup worker, with
non-default values in every other field. -/
def wDedupResp : GetDedupWorkerStatusResp :=
  { is_active := false
    create_time := 7
    total_schedule_cnt := 8
    total_dedup_cnt := 9
    last_schedule_wait_ms := 10
    last_task_total_cost_ms := 11
    last_task_dedup_cost_ms := 12
    last_task_publish_cost_ms := 13
    last_task_staged_part_cnt := 14
    last_task_visible_part_cnt := 15
    last_task_staged_part_total_rows := 16
    last_task_visible_part_total_rows := 17
    dedup_tasks_progress := ["p1"]
    last_exception := "boom"
    last_exception_time := 18 }

/-- Concrete node-selection policy used by the witnesses. -/
def wSelect : Nat → Bool → NodeSelectorResult := fun _ _ => ["10.0.0.1", "10.0.0.2"]

/-- Concrete scheduler state used by the witnesses: freshly constructed,
so its node-selection cache is empty. -/
def wSched : Scheduler := mkScheduler "query-1" ⟨[]⟩ "127.0.0.1" false ⟨100, 500000⟩

/- ------------------------------------------------------------------ -/
/- Helper lemmas -/
/- ------------------------------------------------------------------ -/

/-- A `selectNodes` call preserves every field of the scheduler except the
node-selection cache; in particular the expiration deadline. -/
theorem selectNodes_expiration (g : Nat → Bool → NodeSelectorResult)
    (sched : Scheduler) (t : SegmentTask) :
    (selectNodes g sched t).2.1.query_expiration_ms = sched.query_expiration_ms := rfl

/-- `applySelectCalls` preserves the expiration deadline. -/
theorem applySelectCalls_expiration (g : Nat → Bool → NodeSelectorResult) :
    ∀ (calls : List SegmentTask) (sched : Scheduler),
      (applySelectCalls g sched calls).query_expiration_ms = sched.query_expiration_ms
  | [], _ => rfl
  | t :: ts, sched => by
      rw [applySelectCalls, applySelectCalls_expiration g ts]
      exact selectNodes_expiration g sched t

/-- On a cache miss, `selectNodes` returns the freshly selected result and
stores it under the segment id. -/
theorem selectNodes_miss (g : Nat → Bool → NodeSelectorResult) (sched : Scheduler)
    (t : SegmentTask) (h : sched.node_selector_result t.segment_id = none) :
    (selectNodes g sched t).1 = g t.segment_id t.has_table_scan_or_value ∧
    (selectNodes g sched t).2.1.node_selector_result t.segment_id
      = some (g t.segment_id t.has_table_scan_or_value) := by
  simp [selectNodes, emplaceResult, h]

/-- On a cache hit, `selectNodes` returns the cached result, leaves the
scheduler state unchanged, and still invokes `NodeSelector::select` for the
segment (C++ evaluates the arguments of `emplace` unconditionally). -/
theorem selectNodes_hit (g : Nat → Bool → NodeSelectorResult) (sched : Scheduler)
    (t : SegmentTask) (r : NodeSelectorResult)
    (h : sched.node_selector_result t.segment_id = some r) :
    selectNodes g sched t = (r, sched, [t.segment_id]) := by
  simp [selectNodes, emplaceResult, h]

/-- A `selectNodes` call never changes an existing cache entry. -/
theorem selectNodes_preserves_entry (g : Nat → Bool → NodeSelectorResult)
    (sched : Scheduler) (t : SegmentTask) (s : Nat) (r : NodeSelectorResult)
    (h : sched.node_selector_result s = some r) :
    (selectNodes g sched t).2.1.node_selector_result s = some r := by
  rcases hm : sched.node_selector_result t.segment_id with _ | r'
  · have hne : s ≠ t.segment_id := by
      intro he
      rw [he, hm] at h
      exact Option.noConfusion h
    simp [selectNodes, emplaceResult, hm, hne, h]
  · simp [selectNodes, emplaceResult, hm, h]

/-- A sequence of `selectNodes` calls never changes an existing cache
entry. -/
theorem applySelectCalls_preserves_entry (g : Nat → Bool → NodeSelectorResult) :
    ∀ (calls : List SegmentTask) (sched : Scheduler) (s : Nat) (r : NodeSelectorResult),
      sched.node_selector_result s = some r →
      (applySelectCalls g sched calls).node_selector_result s = some r
  | [], _, _, _, h => h
  | t :: ts, sched, s, r, h => by
      rw [applySelectCalls]
      exact applySelectCalls_preserves_entry g ts _ s r
        (selectNodes_preserves_entry g sched t s r h)

/- ------------------------------------------------------------------ -/
/- Claim theorems -/
/- ------------------------------------------------------------------ -/

/-- C1: Node selection is idempotent per segment within one query.  On the
first `Scheduler::selectNodes` call for a segment id `s` (cache miss) the
`NodeSelector`'s result is stored in `node_selector_result`, and every later
call for `s` — after arbitrary interleaved calls for other segments, and
even under a different selection policy — returns exactly that cached
`NodeSelectorResult` (same addresses, same order). -/
theorem selectNodes_idempotent_per_segment (select : Nat → Bool → NodeSelectorResult)
    (sched : Scheduler) (s : Nat) (flag : Bool)
    (h : sched.node_selector_result s = none) :
    (selectNodes select sched ⟨s, flag⟩).1 = select s flag ∧
    (selectNodes select sched ⟨s, flag⟩).2.1.node_selector_result s = some (select s flag) ∧
    ∀ (g : Nat → Bool → NodeSelectorResult) (calls : List SegmentTask) (flag2 : Bool),
      (selectNodes g (applySelectCalls g (selectNodes select sched ⟨s, flag⟩).2.1 calls)
        ⟨s, flag2⟩).1 = select s flag := by
  obtain ⟨h1, h2⟩ := selectNodes_miss select sched ⟨s, flag⟩ h
  refine ⟨h1, h2, fun g calls flag2 => ?_⟩
  have hkeep := applySelectCalls_preserves_entry g calls _ s (select s flag) h2
  rw [selectNodes_hit g _ ⟨s, flag2⟩ (select s flag) hkeep]

/-- Witness for C1 at a concrete scheduler, segment and policy. -/
theorem selectNodes_idempotent_per_segment_witness :
    wSched.node_selector_result 0 = none ∧
    ((selectNodes wSelect wSched ⟨0, true⟩).1 = wSelect 0 true ∧
     (selectNodes wSelect wSched ⟨0, true⟩).2.1.node_selector_result 0
       = some (wSelect 0 true) ∧
     ∀ (g : Nat → Bool → NodeSelectorResult) (calls : List SegmentTask) (flag2 : Bool),
       (selectNodes g (applySelectCalls g (selectNodes wSelect wSched ⟨0, true⟩).2.1 calls)
         ⟨0, flag2⟩).1 = wSelect 0 true) :=
  ⟨rfl, selectNodes_idempotent_per_segment wSelect wSched 0 true rfl⟩

/-- C2 (amended): re-invocation of `Scheduler::selectNodes` for an
already-resolved segment returns the cached result and leaves the
scheduler's state (in particular the cache) unchanged, but
`NodeSelector::select` is still invoked for the segment — its result is
discarded by `emplace`. -/
theorem selectNodes_cached_no_state_change (select : Nat → Bool → NodeSelectorResult)
    (sched : Scheduler) (t : SegmentTask) (r : NodeSelectorResult)
    (h : sched.node_selector_result t.segment_id = some r) :
    (selectNodes select sched t).1 = r ∧
    (selectNodes select sched t).2.1 = sched ∧
    (selectNodes select sched t).2.2 = [t.segment_id] := by
  rw [selectNodes_hit select sched t r h]
  exact ⟨rfl, rfl, rfl⟩

/-- Witness for the amended C2 at a concrete resolved segment. -/
theorem selectNodes_cached_no_state_change_witness :
    ((selectNodes wSelect wSched ⟨0, true⟩).2.1.node_selector_result 0
       = some ["10.0.0.1", "10.0.0.2"]) ∧
    ((selectNodes wSelect (selectNodes wSelect wSched ⟨0, true⟩).2.1 ⟨0, true⟩).1
       = ["10.0.0.1", "10.0.0.2"] ∧
     (selectNodes wSelect (selectNodes wSelect wSched ⟨0, true⟩).2.1 ⟨0, true⟩).2.1
       = (selectNodes wSelect wSched ⟨0, true⟩).2.1 ∧
     (selectNodes wSelect (selectNodes wSelect wSched ⟨0, true⟩).2.1 ⟨0, true⟩).2.2 = [0]) :=
  ⟨rfl, selectNodes_cached_no_state_change wSelect _ ⟨0, true⟩ _ rfl⟩

/-- Counterexample to C2 as stated: for a segment that is already resolved
(segment 0 after a first call), a further `selectNodes` call does invoke
`NodeSelector::select` again — the invocation list of the second call is
`[0]`, not empty — because C++ evaluates the second argument of
`node_selector_result.emplace(...)` before the lookup. -/
theorem selectNodes_cached_invokes_select_again :
    (selectNodes wSelect (selectNodes wSelect wSched ⟨0, true⟩).2.1 ⟨0, true⟩).2.2 = [0] ∧
    ([0] : List Nat) ≠ [] :=
  ⟨rfl, by decide⟩

/-- C3: when the RPC port is unset (zero) in the task parameters/command,
`CnchWorkerClient::submitManipulationTask`,
`CnchWorkerClient::submitMvRefreshTask` and
`CnchWorkerClient::submitKafkaConsumeTask` each raise a logical error
before issuing any RPC: the result is an error and the list of issued
RPCs is empty, so no task is ever submitted. -/
theorem rpc_port_zero_aborts_before_dispatch (hd : Bool) (ds : String)
    (params : ManipulationTaskParams) (txn : Nat) (command : KafkaTaskCommand)
    (h1 : params.rpc_port = 0) (h2 : command.rpc_port = 0) :
    (∃ e, submitManipulationTask hd ds params txn = Except.error e) ∧
    issuedRpcs (submitManipulationTask hd ds params txn) = [] ∧
    (∃ e, submitMvRefreshTask params txn = Except.error e) ∧
    issuedRpcs (submitMvRefreshTask params txn) = [] ∧
    (∃ e, submitKafkaConsumeTask command = Except.error e) ∧
    issuedRpcs (submitKafkaConsumeTask command) = [] := by
  simp [submitManipulationTask, submitMvRefreshTask, submitKafkaConsumeTask,
    issuedRpcs, h1, h2]

/-- Witness for C3 at concrete parameters with an unset RPC port. -/
theorem rpc_port_zero_aborts_before_dispatch_witness :
    (∃ e, submitManipulationTask false "" wManipParams 1 = Except.error e) ∧
    issuedRpcs (submitManipulationTask false "" wManipParams 1) = [] ∧
    (∃ e, submitMvRefreshTask wManipParams 1 = Except.error e) ∧
    issuedRpcs (submitMvRefreshTask wManipParams 1) = [] ∧
    (∃ e, submitKafkaConsumeTask wKafkaCommand = Except.error e) ∧
    issuedRpcs (submitKafkaConsumeTask wKafkaCommand) = [] :=
  rpc_port_zero_aborts_before_dispatch false "" wManipParams 1 wKafkaCommand rfl rfl

/-- C4: two `SegmentTaskInstance` values compare equal under `operator==`
iff their `segment_id` and `parallel_index` are both equal, and equal
instances hash identically under `SegmentTaskInstance::Hash`
(`(segment_id << 13) + parallel_index` in `size_t` arithmetic). -/
theorem segmentTaskInstance_eq_iff_and_hash (a b : SegmentTaskInstance) :
    (SegmentTaskInstance.eqOp a b = true ↔
      a.segment_id = b.segment_id ∧ a.parallel_index = b.parallel_index) ∧
    (SegmentTaskInstance.eqOp a b = true →
      SegmentTaskInstance.Hash a = SegmentTaskInstance.Hash b) := by
  constructor
  · simp [SegmentTaskInstance.eqOp]
  · intro h
    rw [SegmentTaskInstance.eqOp, Bool.and_eq_true, beq_iff_eq, beq_iff_eq] at h
    rw [SegmentTaskInstance.Hash, SegmentTaskInstance.Hash, h.1, h.2]

/-- Witness for C4 at two concretely equal instances. -/
theorem segmentTaskInstance_eq_iff_and_hash_witness :
    SegmentTaskInstance.eqOp ⟨1, 2⟩ ⟨1, 2⟩ = true ∧
    SegmentTaskInstance.Hash ⟨1, 2⟩ = SegmentTaskInstance.Hash ⟨1, 2⟩ :=
  ⟨by decide, (segmentTaskInstance_eq_iff_and_hash ⟨1, 2⟩ ⟨1, 2⟩).2 (by decide)⟩

/-- C5: the query expiration deadline is computed once at `Scheduler`
construction as `tv_sec * 1000 + tv_nsec / 1000000` (exact integer
arithmetic, truncating division) from the query context's expiration
timestamp, and no modelled scheduler operation afterwards recomputes or
mutates it: any sequence of `selectNodes` calls leaves it unchanged. -/
theorem query_expiration_computed_once (query_id : String) (cn : ClusterNodes)
    (la : AddressInfo) (bs : Bool) (ts : Timespec) :
    (mkScheduler query_id cn la bs ts).query_expiration_ms
      = ts.tv_sec * 1000 + ts.tv_nsec.tdiv 1000000 ∧
    ∀ (g : Nat → Bool → NodeSelectorResult) (calls : List SegmentTask),
      (applySelectCalls g (mkScheduler query_id cn la bs ts) calls).query_expiration_ms
        = ts.tv_sec * 1000 + ts.tv_nsec.tdiv 1000000 := by
  refine ⟨rfl, fun g calls => ?_⟩
  rw [applySelectCalls_expiration g calls]
  rfl

/-- C7: the `Scheduler` constructor appends the caller-distinguished local
address to the cluster membership as one additional `Local`-type worker:
afterwards `cluster_nodes.all_workers` is the supplied worker list plus
exactly one local pseudo-worker entry at the end. -/
theorem scheduler_ctor_appends_local_worker (query_id : String) (cn : ClusterNodes)
    (la : AddressInfo) (bs : Bool) (ts : Timespec) :
    (mkScheduler query_id cn la bs ts).cluster_nodes.all_workers
      = cn.all_workers ++ [⟨la, NodeType.Local, ""⟩] ∧
    (mkScheduler query_id cn la bs ts).cluster_nodes.all_workers.length
      = cn.all_workers.length + 1 := by
  refine ⟨rfl, ?_⟩
  rw [mkScheduler]
  simp

/-- C8: `CnchWorkerClient::broadcastManifest` raises a logical error before
issuing the broadcast RPC whenever the worker's index in the worker group
is at least the group's worker count, and issues the RPC exactly when
`index < num_workers`. -/
theorem broadcastManifest_index_guard (table_uuid : String) (txn_id : Nat)
    (worker_id : String) (idx n : Nat) (parts dbs : List String) :
    (n ≤ idx →
      issuedRpcs (broadcastManifest table_uuid txn_id worker_id idx n parts dbs) = [] ∧
      ∃ e, broadcastManifest table_uuid txn_id worker_id idx n parts dbs
        = Except.error e) ∧
    (idx < n →
      ∃ req, broadcastManifest table_uuid txn_id worker_id idx n parts dbs
        = Except.ok req) := by
  constructor
  · intro h
    simp [broadcastManifest, issuedRpcs, h]
  · intro h
    simp [broadcastManifest, Nat.not_le.mpr h]

/-- Witness for C8: a worker index out of range (3 with 2 workers) yields no
RPC; an in-range index (0 with 2 workers) issues the RPC. -/
theorem broadcastManifest_index_guard_witness :
    (issuedRpcs (broadcastManifest "uuid" 1 "w0" 3 2 [] []) = [] ∧
      ∃ e, broadcastManifest "uuid" 1 "w0" 3 2 [] [] = Except.error e) ∧
    ∃ req, broadcastManifest "uuid" 1 "w0" 0 2 [] [] = Except.ok req :=
  ⟨(broadcastManifest_index_guard "uuid" 1 "w0" 3 2 [] []).1 (by decide),
   (broadcastManifest_index_guard "uuid" 1 "w0" 0 2 [] []).2 (by decide)⟩

/-- C9: `CnchWorkerClient::sendCreateQueries` sets the remote
session-cleanup timeout of the request to the configured
`max_execution_time` in seconds when nonzero, and to 3600 seconds when the
setting is zero. -/
theorem sendCreateQueries_timeout (txn pri t : Nat) (cq ctq : List String) :
    (t ≠ 0 → (sendCreateQueries txn pri t cq ctq).timeout = t) ∧
    (t = 0 → (sendCreateQueries txn pri t cq ctq).timeout = 3600) := by
  constructor <;> intro h <;> simp [sendCreateQueries, h]

/-- Witness for C9 at a nonzero and a zero `max_execution_time`. -/
theorem sendCreateQueries_timeout_witness :
    (sendCreateQueries 1 1 5 [] []).timeout = 5 ∧
    (sendCreateQueries 1 1 0 [] []).timeout = 3600 :=
  ⟨(sendCreateQueries_timeout 1 1 5 [] []).1 (by decide),
   (sendCreateQueries_timeout 1 1 0 [] []).2 rfl⟩

/-- C10: when the worker's response reports `is_active = false`,
`CnchWorkerClient::getDedupWorkerStatus` returns a status equal to the
default-constructed `DedupWorkerStatus` (whose `is_active` is false):
counters, costs, progress and exception fields are copied from the
response only when the worker is active. -/
theorem getDedupWorkerStatus_inactive_default (response : GetDedupWorkerStatusResp)
    (h : response.is_active = false) :
    getDedupWorkerStatus response = DedupWorkerStatus.init ∧
    (getDedupWorkerStatus response).is_active = false := by
  have he : getDedupWorkerStatus response = DedupWorkerStatus.init := by
    simp [getDedupWorkerStatus, h, DedupWorkerStatus.init]
  exact ⟨he, by rw [he]; rfl⟩

/-- Witness for C10 at a concrete inactive response whose other fields are
all non-default. -/
theorem getDedupWorkerStatus_inactive_default_witness :
    getDedupWorkerStatus wDedupResp = DedupWorkerStatus.init ∧
    (getDedupWorkerStatus wDedupResp).is_active = false :=
  getDedupWorkerStatus_inactive_default wDedupResp rfl

/- ------------------------------------------------------------------ -/
/- Termination of the scheduling loop (C6) -/
/- ------------------------------------------------------------------ -/

section ScheduleLoop

variable (segs : Finset Nat) (deps : Nat → Finset Nat) (outcome : Nat → Bool)

/-- A status is terminal exactly when it is not `Pending`. -/
theorem isTerminal_iff (x : SegStatus) : x.isTerminal = true ↔ x ≠ SegStatus.Pending := by
  cases x <;> simp [SegStatus.isTerminal]

/-- A scheduling round never changes a segment that is past `Pending`:
terminal states are absorbing. -/
theorem scheduleStep_of_not_pending (st : Nat → SegStatus) (s : Nat)
    (h : st s ≠ SegStatus.Pending) :
    scheduleStep segs deps outcome st s = st s := by
  rw [scheduleStep]
  by_cases hc : (segs.filter fun x => st x = SegStatus.FinishedFail).Nonempty
  · rw [if_pos hc]
    exact if_neg (fun hp => h hp.2)
  · rw [if_neg hc]
    exact if_neg (fun hp => h hp.2.1)

/-- A scheduling round never touches ids outside the DAG. -/
theorem scheduleStep_of_not_mem (st : Nat → SegStatus) (s : Nat) (h : s ∉ segs) :
    scheduleStep segs deps outcome st s = st s := by
  rw [scheduleStep]
  by_cases hc : (segs.filter fun x => st x = SegStatus.FinishedFail).Nonempty
  · rw [if_pos hc]
    exact if_neg (fun hp => h hp.1)
  · rw [if_neg hc]
    exact if_neg (fun hp => h hp.1)

/-- A scheduling round never makes a segment pending again. -/
theorem scheduleStep_pending_of_pending (st : Nat → SegStatus) (s : Nat)
    (h : scheduleStep segs deps outcome st s = SegStatus.Pending) :
    st s = SegStatus.Pending := by
  by_cases hp : st s = SegStatus.Pending
  · exact hp
  · rw [scheduleStep_of_not_pending segs deps outcome st s hp] at h
    exact absurd h hp

/-- The trace starts with every segment pending. -/
theorem scheduleTrace_zero (s : Nat) :
    scheduleTrace segs deps outcome 0 s = SegStatus.Pending := rfl

/-- A segment pending after `k + 1` rounds was pending after `k` rounds. -/
theorem scheduleTrace_pending_of_pending (k : Nat) (s : Nat)
    (h : scheduleTrace segs deps outcome (k + 1) s = SegStatus.Pending) :
    scheduleTrace segs deps outcome k s = SegStatus.Pending := by
  rw [scheduleTrace] at h
  exact scheduleStep_pending_of_pending segs deps outcome _ s h

/-- Once a segment is terminal it stays terminal for all later rounds. -/
theorem trace_terminal_mono (s : Nat) (k j : Nat) (hkj : k ≤ j)
    (h : (scheduleTrace segs deps outcome k s).isTerminal = true) :
    (scheduleTrace segs deps outcome j s).isTerminal = true := by
  induction j, hkj using Nat.le_induction with
  | base => exact h
  | succ j _ ih =>
      rw [scheduleTrace, scheduleStep_of_not_pending segs deps outcome _ s
        ((isTerminal_iff _).mp ih)]
      exact ih

/-- An observed failure persists to the next round. -/
theorem failure_persists (k : Nat)
    (h : (segs.filter fun x =>
      scheduleTrace segs deps outcome k x = SegStatus.FinishedFail).Nonempty) :
    (segs.filter fun x =>
      scheduleTrace segs deps outcome (k + 1) x = SegStatus.FinishedFail).Nonempty := by
  obtain ⟨w, hw⟩ := h
  rw [Finset.mem_filter] at hw
  refine ⟨w, Finset.mem_filter.mpr ⟨hw.1, ?_⟩⟩
  rw [scheduleTrace, scheduleStep_of_not_pending segs deps outcome _ w
    (by rw [hw.2]; decide)]
  exact hw.2

/-- As long as no failure has been observed, no segment is canceled. -/
theorem no_cancel_of_no_failure : ∀ k : Nat,
    ¬ (segs.filter fun x =>
        scheduleTrace segs deps outcome k x = SegStatus.FinishedFail).Nonempty →
    ∀ s, scheduleTrace segs deps outcome k s ≠ SegStatus.Canceled
  | 0, _, s => by rw [scheduleTrace_zero]; decide
  | k + 1, h, s => by
      have hk : ¬ (segs.filter fun x =>
          scheduleTrace segs deps outcome k x = SegStatus.FinishedFail).Nonempty :=
        fun hf => h (failure_persists segs deps outcome k hf)
      rw [scheduleTrace, scheduleStep, if_neg hk]
      by_cases hc : s ∈ segs ∧ scheduleTrace segs deps outcome k s = SegStatus.Pending ∧
          ∀ d ∈ deps s, scheduleTrace segs deps outcome k d = SegStatus.FinishedSuccess
      · rw [if_pos hc]
        by_cases ho : outcome s = true
        · rw [if_pos ho]; decide
        · rw [if_neg ho]; decide
      · rw [if_neg hc]
        exact no_cancel_of_no_failure k hk s

/-- Progress: on an acyclic DAG whose dependency sets stay inside the DAG,
if no failure has been observed and some segment is still pending, then
some pending segment is dispatched and completes this round (a pending
segment of minimal rank has all upstream segments finished successfully). -/
theorem schedule_progress (rank : Nat → Nat)
    (hdeps : ∀ s ∈ segs, deps s ⊆ segs)
    (hacyc : ∀ s ∈ segs, ∀ d ∈ deps s, rank d < rank s) (k : Nat)
    (hnf : ¬ (segs.filter fun x =>
      scheduleTrace segs deps outcome k x = SegStatus.FinishedFail).Nonempty)
    (hne : (pendSet segs deps outcome k).Nonempty) :
    ∃ m ∈ pendSet segs deps outcome k,
      scheduleTrace segs deps outcome (k + 1) m ≠ SegStatus.Pending := by
  obtain ⟨m, hm, hmin⟩ := Finset.exists_min_image (pendSet segs deps outcome k) rank hne
  have hm' := Finset.mem_filter.mp hm
  refine ⟨m, hm, ?_⟩
  have hel : ∀ d ∈ deps m,
      scheduleTrace segs deps outcome k d = SegStatus.FinishedSuccess := by
    intro d hd
    have hdseg : d ∈ segs := hdeps m hm'.1 hd
    cases hstat : scheduleTrace segs deps outcome k d with
    | Pending =>
        have hdpend : d ∈ pendSet segs deps outcome k :=
          Finset.mem_filter.mpr ⟨hdseg, hstat⟩
        have h1 := hmin d hdpend
        have h2 := hacyc m hm'.1 d hd
        omega
    | FinishedSuccess => rfl
    | FinishedFail =>
        exact absurd ⟨d, Finset.mem_filter.mpr ⟨hdseg, hstat⟩⟩ hnf
    | Canceled =>
        exact absurd hstat (no_cancel_of_no_failure segs deps outcome k hnf d)
  rw [scheduleTrace, scheduleStep, if_neg hnf, if_pos ⟨hm'.1, hm'.2, hel⟩]
  by_cases ho : outcome m = true
  · rw [if_pos ho]; decide
  · rw [if_neg ho]; decide

/-- The pending set shrinks (weakly) every round. -/
theorem pendSet_subset_succ (k : Nat) :
    pendSet segs deps outcome (k + 1) ⊆ pendSet segs deps outcome k := by
  intro s hs
  rw [pendSet, Finset.mem_filter] at hs ⊢
  exact ⟨hs.1, scheduleTrace_pending_of_pending segs deps outcome k s hs.2⟩

/-- The pending set shrinks strictly while no failure has been observed and
segments remain pending. -/
theorem pend_card_decrease (rank : Nat → Nat)
    (hdeps : ∀ s ∈ segs, deps s ⊆ segs)
    (hacyc : ∀ s ∈ segs, ∀ d ∈ deps s, rank d < rank s) (k : Nat)
    (hnf : ¬ (segs.filter fun x =>
      scheduleTrace segs deps outcome k x = SegStatus.FinishedFail).Nonempty)
    (hne : (pendSet segs deps outcome k).Nonempty) :
    (pendSet segs deps outcome (k + 1)).card < (pendSet segs deps outcome k).card := by
  obtain ⟨m, hm, hstep⟩ := schedule_progress segs deps outcome rank hdeps hacyc k hnf hne
  refine Finset.card_lt_card ?_
  refine (Finset.ssubset_iff_of_subset (pendSet_subset_succ segs deps outcome k)).mpr
    ⟨m, hm, ?_⟩
  rw [pendSet, Finset.mem_filter]
  rintro ⟨-, hp⟩
  exact hstep hp

/-- Once a failure is observed, the next round cancels every pending
segment: nothing stays pending. -/
theorem pend_empty_of_failure (k : Nat)
    (hf : (segs.filter fun x =>
      scheduleTrace segs deps outcome k x = SegStatus.FinishedFail).Nonempty) :
    pendSet segs deps outcome (k + 1) = ∅ := by
  rw [Finset.eq_empty_iff_forall_not_mem]
  intro s hs
  rw [pendSet, Finset.mem_filter] at hs
  obtain ⟨hseg, hp⟩ := hs
  rw [scheduleTrace, scheduleStep, if_pos hf] at hp
  by_cases hc : s ∈ segs ∧ scheduleTrace segs deps outcome k s = SegStatus.Pending
  · rw [if_pos hc] at hp
    exact SegStatus.noConfusion hp
  · rw [if_neg hc] at hp
    exact hc ⟨hseg, hp⟩

/-- An empty pending set stays empty. -/
theorem pend_empty_succ (k : Nat) (h : pendSet segs deps outcome k = ∅) :
    pendSet segs deps outcome (k + 1) = ∅ :=
  Finset.subset_empty.mp (h ▸ pendSet_subset_succ segs deps outcome k)

/-- Bound on the pending count: after `k` rounds either at least `k`
segments are settled or nothing is pending any more. -/
theorem pend_card_bound (rank : Nat → Nat)
    (hdeps : ∀ s ∈ segs, deps s ⊆ segs)
    (hacyc : ∀ s ∈ segs, ∀ d ∈ deps s, rank d < rank s) (k : Nat) :
    (pendSet segs deps outcome k).card + k ≤ segs.card ∨
    (pendSet segs deps outcome k).card = 0 := by
  induction k with
  | zero =>
      left
      simpa using Finset.card_filter_le segs
        (fun s => scheduleTrace segs deps outcome 0 s = SegStatus.Pending)
  | succ k ih =>
      rcases ih with hb | hb
      · rcases Finset.eq_empty_or_nonempty (pendSet segs deps outcome k) with he | hne
        · right
          rw [pend_empty_succ segs deps outcome k he]
          simp
        · by_cases hnf : (segs.filter fun x =>
              scheduleTrace segs deps outcome k x = SegStatus.FinishedFail).Nonempty
          · right
            rw [pend_empty_of_failure segs deps outcome k hnf]
            simp
          · left
            have := pend_card_decrease segs deps outcome rank hdeps hacyc k hnf hne
            omega
      · right
        rw [pend_empty_succ segs deps outcome k (Finset.card_eq_zero.mp hb)]
        simp

/-- After as many rounds as there are segments, nothing is pending. -/
theorem pend_empty_final (rank : Nat → Nat)
    (hdeps : ∀ s ∈ segs, deps s ⊆ segs)
    (hacyc : ∀ s ∈ segs, ∀ d ∈ deps s, rank d < rank s) :
    pendSet segs deps outcome segs.card = ∅ := by
  rcases pend_card_bound segs deps outcome rank hdeps hacyc segs.card with h | h
  · exact Finset.card_eq_zero.mp (by omega)
  · exact Finset.card_eq_zero.mp h

/-- If a segment is terminal after some round, there is a round at which it
crossed from non-terminal to terminal. -/
theorem exists_crossing (s : Nat) : ∀ n : Nat,
    (scheduleTrace segs deps outcome n s).isTerminal = true →
    ∃ k, (scheduleTrace segs deps outcome k s).isTerminal = false ∧
      (scheduleTrace segs deps outcome (k + 1) s).isTerminal = true := by
  intro n
  induction n with
  | zero =>
      intro h
      rw [scheduleTrace_zero] at h
      exact absurd h (by decide)
  | succ n ih =>
      intro h
      by_cases hn : (scheduleTrace segs deps outcome n s).isTerminal = true
      · exact ih hn
      · exact ⟨n, by simpa using hn, h⟩

end ScheduleLoop

/-- C6: modelled from the spec (the body of `Scheduler::schedule` and the
dependency tracker live in `Scheduler.cpp`, outside the sample): for every
acyclic plan-segment DAG — acyclicity witnessed by a rank function
decreasing along dependencies — whose dependency sets stay inside the DAG,
the scheduling loop terminates within `segs.card` rounds (the reached state
is a fixed point of the round function, so the loop never livelocks), every
segment of the DAG reaches a terminal state (`Finished(Success)`,
`Finished(Fail)` or `Canceled`), and each segment crosses into a terminal
state at exactly one round — never zero, never more than one. -/
theorem schedule_terminates_unique_terminal (segs : Finset Nat)
    (deps : Nat → Finset Nat) (outcome : Nat → Bool) (rank : Nat → Nat)
    (hdeps : ∀ s ∈ segs, deps s ⊆ segs)
    (hacyc : ∀ s ∈ segs, ∀ d ∈ deps s, rank d < rank s) :
    (∀ s ∈ segs, (schedule segs deps outcome s).isTerminal = true) ∧
    scheduleStep segs deps outcome (schedule segs deps outcome)
      = schedule segs deps outcome ∧
    ∀ s ∈ segs, ∃! k, (scheduleTrace segs deps outcome k s).isTerminal = false ∧
      (scheduleTrace segs deps outcome (k + 1) s).isTerminal = true := by
  have hterm : ∀ s ∈ segs, (schedule segs deps outcome s).isTerminal = true := by
    intro s hs
    rw [schedule, isTerminal_iff]
    intro hp
    have hmem : s ∈ pendSet segs deps outcome segs.card :=
      Finset.mem_filter.mpr ⟨hs, hp⟩
    rw [pend_empty_final segs deps outcome rank hdeps hacyc] at hmem
    exact absurd hmem (Finset.not_mem_empty s)
  refine ⟨hterm, ?_, ?_⟩
  · funext s
    by_cases hs : s ∈ segs
    · exact scheduleStep_of_not_pending segs deps outcome _ s
        ((isTerminal_iff _).mp (hterm s hs))
    · exact scheduleStep_of_not_mem segs deps outcome _ s hs
  · intro s hs
    obtain ⟨k, hk1, hk2⟩ := exists_crossing segs deps outcome s segs.card (hterm s hs)
    refine ⟨k, ⟨hk1, hk2⟩, ?_⟩
    intro y hy
    rcases Nat.lt_trichotomy y k with hlt | heq | hgt
    · have ht := trace_terminal_mono segs deps outcome s (y + 1) k hlt hy.2
      rw [hk1] at ht
      exact Bool.noConfusion ht
    · exact heq
    · have ht := trace_terminal_mono segs deps outcome s (k + 1) y hgt hk2
      rw [hy.1] at ht
      exact Bool.noConfusion ht

/-- Witness for C6 at a concrete three-segment DAG (two sources feeding one
sink), all outcomes successful, ranked by segment id. -/
theorem schedule_terminates_unique_terminal_witness :
    (∀ s ∈ ({0, 1, 2} : Finset Nat),
      (schedule {0, 1, 2} (fun s => if s = 2 then {0, 1} else ∅) (fun _ => true)
        s).isTerminal = true) ∧
    scheduleStep {0, 1, 2} (fun s => if s = 2 then {0, 1} else ∅) (fun _ => true)
      (schedule {0, 1, 2} (fun s => if s = 2 then {0, 1} else ∅) (fun _ => true))
      = schedule {0, 1, 2} (fun s => if s = 2 then {0, 1} else ∅) (fun _ => true) ∧
    ∀ s ∈ ({0, 1, 2} : Finset Nat), ∃! k,
      (scheduleTrace {0, 1, 2} (fun s => if s = 2 then {0, 1} else ∅) (fun _ => true)
        k s).isTerminal = false ∧
      (scheduleTrace {0, 1, 2} (fun s => if s = 2 then {0, 1} else ∅) (fun _ => true)
        (k + 1) s).isTerminal = true :=
  schedule_terminates_unique_terminal {0, 1, 2}
    (fun s => if s = 2 then {0, 1} else ∅) (fun _ => true) (fun s => s)
    (by decide) (by decide)

end ByConity
